import Mathlib

/-!
Shallow embedding of the client-side encryption core of the Toss repository
(`src/utils/crypto.ts`): the `CryptoUtil` cipher wrapper and the
`ASEKeyManager` key-lifecycle manager.

The cipher primitives (`CryptoJS.SHA256`, `CryptoJS.AES.encrypt`,
`CryptoJS.AES.decrypt(...).toString(CryptoJS.enc.Utf8)`) come from the
external `crypto-js` library, not from the repository, so they are
modelled as an abstract backend structure; theorems that depend on
properties of the primitives take those properties as explicit hypotheses
(stated as laws on the backend), and concrete toy backends are used to
instantiate them.  Exceptions are modelled with `Except String`, the
error value being the thrown message.
-/

namespace Toss

/-- Abstract interface to the `crypto-js` primitives used by `CryptoUtil`.
`sha256 s` models `CryptoJS.SHA256(s).toString()` (total, deterministic).
`aesEncrypt pt key` models `CryptoJS.AES.encrypt(pt, key).toString()`,
which may throw (`Except.error`).  `aesDecryptUtf8 ct key` models
`CryptoJS.AES.decrypt(ct, key).toString(CryptoJS.enc.Utf8)`: it throws
when the envelope cannot be parsed or the bytes are not valid UTF-8, and
otherwise returns the decoded string (possibly empty). -/
structure CryptoJSBackend where
  sha256 : String → String
  aesEncrypt : String → String → Except String String
  aesDecryptUtf8 : String → String → Except String String

/-- The whitespace class trimmed by JavaScript's `String.prototype.trim`
(ASCII whitespace, NBSP, BOM and the Unicode line separators — the code
points relevant to this model). -/
def isJsWhitespace (c : Char) : Bool :=
  c == ' ' || c == '\t' || c == '\n' || c == '\r' ||
  c == '\x0b' || c == '\x0c' || c == '\u00A0' ||
  c == '\uFEFF' || c == '\u2028' || c == '\u2029'

/-- JavaScript's `String.prototype.trim`: strip leading and trailing
whitespace.  Defined by structural recursion over the character data so
that it evaluates inside the kernel. -/
def jsTrim (s : String) : String :=
  String.mk (((s.data.dropWhile isJsWhitespace).reverse.dropWhile
    isJsWhitespace).reverse)

namespace CryptoUtil

/-- `CryptoUtil.generateKey`: derive the encryption key by hashing the
passphrase with SHA-256. -/
def generateKey (B : CryptoJSBackend) (keyString : String) : String :=
  B.sha256 keyString

/-- `CryptoUtil.encrypt`: derive the key, AES-encrypt, and on any
primitive failure throw the fixed encryption-error message. -/
def encrypt (B : CryptoJSBackend) (plainText keyString : String) :
    Except String String :=
  match B.aesEncrypt plainText (generateKey B keyString) with
  | .ok encrypted => .ok encrypted
  | .error _ => .error "加密失败，请检查密钥"

/-- `CryptoUtil.decrypt`: derive the key, AES-decrypt and UTF-8-decode,
throw on an empty result; any failure inside the `try` block (primitive
throw or the empty-result throw) is caught and re-thrown as the fixed
decryption-error message. -/
def decrypt (B : CryptoJSBackend) (encryptedText keyString : String) :
    Except String String :=
  match
    (do
      let plaintext ← B.aesDecryptUtf8 encryptedText (generateKey B keyString)
      if plaintext = "" then
        throw "解密结果为空"
      else
        pure plaintext : Except String String) with
  | .ok v => .ok v
  | .error _ => .error "解密失败，请检查密钥"

/-- `CryptoUtil.validateKey`: reject empty / whitespace-only passphrases
and passphrases shorter than 8 characters after trimming. -/
def validateKey (keyString : String) : Bool :=
  if keyString = "" || (jsTrim keyString).length == 0 then
    false
  else if (jsTrim keyString).length < 8 then
    false
  else
    true

/-- The body of `CryptoUtil.testKey`'s `try` block: round-trip the fixed
string `"test"` and compare the result with the original. -/
def testKeyBody (B : CryptoJSBackend) (keyString : String) :
    Except String Bool := do
  let encrypted ← encrypt B "test" keyString
  let decrypted ← decrypt B encrypted keyString
  pure ("test" == decrypted)

/-- `CryptoUtil.testKey`: run the round-trip self-test, returning `false`
if anything inside throws. -/
def testKey (B : CryptoJSBackend) (keyString : String) : Bool :=
  match testKeyBody B keyString with
  | .ok b => b
  | .error _ => false

end CryptoUtil

/-- The state visible to `ASEKeyManager`: whether we are in a client
execution context (`process.client`) and the contents of the
`localStorage` slot under the fixed key `'ASEToken'`. -/
structure StorageState where
  isClient : Bool
  stored : Option String
deriving DecidableEq, Repr

namespace ASEKeyManager

/-- `ASEKeyManager.getKey`: read the stored passphrase; `null` outside a
client context or when never set. -/
def getKey (st : StorageState) : Option String :=
  if st.isClient then st.stored else none

/-- `ASEKeyManager.setKey`: persist the passphrase (overwriting any
previous value); a no-op outside a client context. -/
def setKey (key : String) (st : StorageState) : StorageState :=
  if st.isClient then { st with stored := some key } else st

/-- `ASEKeyManager.removeKey`: delete the stored passphrase; a no-op
outside a client context. -/
def removeKey (st : StorageState) : StorageState :=
  if st.isClient then { st with stored := none } else st

/-- `ASEKeyManager.hasKey`: `getKey() !== null`. -/
def hasKey (st : StorageState) : Bool :=
  (getKey st).isSome

/-- `ASEKeyManager.isKeyValid`: read the stored key, return `false` when
it is absent or falsy (empty string), otherwise require both
`CryptoUtil.validateKey` and `CryptoUtil.testKey` to pass. -/
def isKeyValid (B : CryptoJSBackend) (st : StorageState) : Bool :=
  match getKey st with
  | none => false
  | some key =>
    if key = "" then false
    else CryptoUtil.validateKey key && CryptoUtil.testKey B key

/-- `ASEKeyManager.getKey`, elaborated in the exception monad (the body
contains no `throw`, so it is a `pure` computation). -/
def getKeyE (st : StorageState) : Except String (Option String) :=
  pure (if st.isClient then st.stored else none)

/-- `ASEKeyManager.setKey`, elaborated in the exception monad. -/
def setKeyE (key : String) (st : StorageState) : Except String StorageState :=
  pure (if st.isClient then { st with stored := some key } else st)

/-- `ASEKeyManager.removeKey`, elaborated in the exception monad. -/
def removeKeyE (st : StorageState) : Except String StorageState :=
  pure (if st.isClient then { st with stored := none } else st)

/-- `ASEKeyManager.hasKey`, elaborated in the exception monad: it calls
`getKey` and compares with `null`. -/
def hasKeyE (st : StorageState) : Except String Bool := do
  let k ← getKeyE st
  pure k.isSome

/-- `ASEKeyManager.isKeyValid`, elaborated in the exception monad with
the `try`/`catch` inside `CryptoUtil.testKey` made explicit, so that the
possibility of a cipher exception propagating out of the key manager can
be stated and refuted. -/
def isKeyValidE (B : CryptoJSBackend) (st : StorageState) :
    Except String Bool := do
  let key ← getKeyE st
  match key with
  | none => pure false
  | some k =>
    if k = "" then
      pure false
    else do
      let usable ← tryCatch (CryptoUtil.testKeyBody B k) (fun _ => pure false)
      pure (CryptoUtil.validateKey k && usable)

end ASEKeyManager

/-! ### Laws of the external cipher primitives

`crypto-js` is not part of the repository, so the properties of its
primitives that the specified behaviour relies on are stated as explicit
laws on a backend. -/

/-- The AES primitive round-trips: whatever `aesEncrypt` produced under a
key, `aesDecryptUtf8` under the same key recovers the plaintext. -/
def AESCorrect (B : CryptoJSBackend) : Prop :=
  ∀ pt key ct, B.aesEncrypt pt key = Except.ok ct →
    B.aesDecryptUtf8 ct key = Except.ok pt

/-- The AES primitive accepts every plaintext/key pair (encryption never
throws). -/
def EncryptTotal (B : CryptoJSBackend) : Prop :=
  ∀ pt key, ∃ ct, B.aesEncrypt pt key = Except.ok ct

/-- Key separation of the AES primitive: decrypting under a key different
from the encryption key never silently reproduces the original
plaintext (it throws, or yields something else). -/
def KeySeparation (B : CryptoJSBackend) : Prop :=
  ∀ pt k1 k2 ct, k1 ≠ k2 → B.aesEncrypt pt k1 = Except.ok ct →
    B.aesDecryptUtf8 ct k2 ≠ Except.ok pt

/-! ### Concrete toy backends used to instantiate the laws -/

/-- A degenerate but law-abiding backend: hashing and the cipher are the
identity.  It satisfies `AESCorrect` and `EncryptTotal`, which is all the
round-trip statements assume. -/
def idBackend : CryptoJSBackend where
  sha256 := fun s => s
  aesEncrypt := fun pt _ => Except.ok pt
  aesDecryptUtf8 := fun ct _ => Except.ok ct

/-- A key-sensitive toy backend: only the derived key `"A"` (the hash of
`"passphrase-one"`) encrypts and decrypts; every other key makes the
primitives throw.  It satisfies `KeySeparation`. -/
def lockBackend : CryptoJSBackend where
  sha256 := fun p => if p = "passphrase-one" then "A" else "B"
  aesEncrypt := fun pt key =>
    if key = "A" then Except.ok pt else Except.error "invalid key"
  aesDecryptUtf8 := fun ct key =>
    if key = "A" then Except.ok ct else Except.error "Malformed UTF-8 data"

/-- A corrupted/unavailable cipher backend: every primitive call throws. -/
def errBackend : CryptoJSBackend where
  sha256 := fun s => s
  aesEncrypt := fun _ _ => Except.error "cipher unavailable"
  aesDecryptUtf8 := fun _ _ => Except.error "cipher unavailable"

/-- A backend whose hash has a fixed 64-character lowercase-hex output
and separates the two sample passphrases. -/
def hashBackend : CryptoJSBackend where
  sha256 := fun s =>
    String.mk (List.replicate 64 (if s = "passphrase-one" then 'a' else 'b'))
  aesEncrypt := fun pt _ => Except.ok pt
  aesDecryptUtf8 := fun ct _ => Except.ok ct

theorem idBackend_aesCorrect : AESCorrect idBackend := by
  intro pt key ct h
  cases h
  rfl

theorem idBackend_encryptTotal : EncryptTotal idBackend :=
  fun pt _ => ⟨pt, rfl⟩

theorem lockBackend_keySeparation : KeySeparation lockBackend := by
  intro pt k1 k2 ct hne henc
  by_cases h1 : k1 = "A"
  · subst h1
    have h2 : k2 ≠ "A" := fun h => hne h.symm
    simp only [lockBackend] at henc ⊢
    rw [if_pos trivial] at henc
    cases henc
    simp [h2]
  · simp only [lockBackend] at henc
    rw [if_neg h1] at henc
    exact Except.noConfusion henc

/-! ### Helper lemmas -/

theorem except_bind_ok {α β : Type} (a : α) (f : α → Except String β) :
    (Except.ok a : Except String α) >>= f = f a := rfl

theorem except_bind_error {α β : Type} (e : String)
    (f : α → Except String β) :
    (Except.error e : Except String α) >>= f = (Except.error e : Except String β) := rfl

/-- Normal form of `CryptoUtil.encrypt`: it succeeds exactly when the
primitive does, and otherwise throws the fixed encryption error. -/
theorem encrypt_eq (B : CryptoJSBackend) (pt p : String) :
    CryptoUtil.encrypt B pt p =
      match B.aesEncrypt pt (CryptoUtil.generateKey B p) with
      | Except.ok e => Except.ok e
      | Except.error _ => Except.error "加密失败，请检查密钥" := rfl

theorem encrypt_ok_iff (B : CryptoJSBackend) (pt p e : String) :
    CryptoUtil.encrypt B pt p = Except.ok e ↔
      B.aesEncrypt pt (CryptoUtil.generateKey B p) = Except.ok e := by
  rw [encrypt_eq]
  cases h : B.aesEncrypt pt (CryptoUtil.generateKey B p) <;> simp

/-- Normal form of `CryptoUtil.decrypt`: primitive failure and the
empty-plaintext check both collapse to the fixed decryption error. -/
theorem decrypt_eq (B : CryptoJSBackend) (ct p : String) :
    CryptoUtil.decrypt B ct p =
      match B.aesDecryptUtf8 ct (CryptoUtil.generateKey B p) with
      | Except.error _ => Except.error "解密失败，请检查密钥"
      | Except.ok s =>
        if s = "" then Except.error "解密失败，请检查密钥" else Except.ok s := by
  unfold CryptoUtil.decrypt
  cases h : B.aesDecryptUtf8 ct (CryptoUtil.generateKey B p) with
  | error m => rfl
  | ok s =>
    by_cases hs : s = ""
    · subst hs
      rfl
    · show (match (if s = "" then (throw "解密结果为空" : Except String String)
          else pure s) with
        | Except.ok v => Except.ok v
        | Except.error _ => Except.error "解密失败，请检查密钥") = _
      rw [if_neg hs]
      show (Except.ok s : Except String String) = _
      simp [hs]

theorem generateKey_eq (B : CryptoJSBackend) (p : String) :
    CryptoUtil.generateKey B p = B.sha256 p := rfl

theorem except_tryCatch_ok {α : Type} (a : α)
    (h : String → Except String α) :
    tryCatch (Except.ok a : Except String α) h = Except.ok a := rfl

theorem except_tryCatch_error {α : Type} (e : String)
    (h : String → Except String α) :
    tryCatch (Except.error e : Except String α) h = h e := rfl

/-- If the primitive decrypt-and-decode step yields a non-empty string,
`decrypt` returns it. -/
theorem decrypt_of_prim (B : CryptoJSBackend) (ct p s : String) (hs : s ≠ "")
    (h : B.aesDecryptUtf8 ct (CryptoUtil.generateKey B p) = Except.ok s) :
    CryptoUtil.decrypt B ct p = Except.ok s := by
  rw [decrypt_eq, h]
  simp [hs]

theorem testKey_eq (B : CryptoJSBackend) (k : String) :
    CryptoUtil.testKey B k =
      match CryptoUtil.testKeyBody B k with
      | Except.ok b => b
      | Except.error _ => false := rfl

/-- The exception-monad elaboration of `isKeyValid` never escapes with an
error: the `try`/`catch` inside `testKey` absorbs every cipher failure. -/
theorem isKeyValidE_ok (B : CryptoJSBackend) (st : StorageState) :
    ASEKeyManager.isKeyValidE B st =
      Except.ok (ASEKeyManager.isKeyValid B st) := by
  unfold ASEKeyManager.isKeyValidE ASEKeyManager.isKeyValid
  show (match ASEKeyManager.getKey st with
    | none => (pure false : Except String Bool)
    | some k =>
      if k = "" then pure false
      else do
        let usable ← tryCatch (CryptoUtil.testKeyBody B k) (fun _ => pure false)
        pure (CryptoUtil.validateKey k && usable)) = _
  cases hg : ASEKeyManager.getKey st with
  | none => rfl
  | some k =>
    show (if k = "" then (pure false : Except String Bool)
      else do
        let usable ← tryCatch (CryptoUtil.testKeyBody B k) (fun _ => pure false)
        pure (CryptoUtil.validateKey k && usable)) =
      Except.ok (if k = "" then false
        else CryptoUtil.validateKey k && CryptoUtil.testKey B k)
    by_cases hk : k = ""
    · rw [if_pos hk, if_pos hk]
      rfl
    · rw [if_neg hk, if_neg hk]
      cases htb : CryptoUtil.testKeyBody B k with
      | ok b =>
        rw [except_tryCatch_ok, except_bind_ok, testKey_eq, htb]
        rfl
      | error m =>
        rw [except_tryCatch_error, testKey_eq, htb]
        rfl

/-! ### The claims -/

/-- C1 (amended): under a backend whose AES primitive round-trips
(`AESCorrect`), for every passphrase accepted by `validateKey` and every
non-empty plaintext `s`, decrypting the encryption of `s` with the same
passphrase returns `s`.  The original claim also quantified over
`s = ""`, where decryption in fact throws; see `c1_empty_counterexample`. -/
theorem c1_roundtrip (B : CryptoJSBackend) (p s e : String)
    (hA : AESCorrect B) (hval : CryptoUtil.validateKey p = true)
    (hs : s ≠ "") (henc : CryptoUtil.encrypt B s p = Except.ok e) :
    CryptoUtil.decrypt B e p = Except.ok s := by
  have hprim := (encrypt_ok_iff B s p e).mp henc
  have hdec := hA _ _ _ hprim
  rw [decrypt_eq, hdec]
  simp [hs]

/-- C1, counterexample to the claim as stated: with a backend satisfying
the AES round-trip law and the valid passphrase `"password123"`,
encrypting the empty string succeeds, but decrypting the resulting
envelope with the same passphrase throws instead of returning `""`. -/
theorem c1_empty_counterexample :
    AESCorrect idBackend ∧
    CryptoUtil.validateKey "password123" = true ∧
    CryptoUtil.encrypt idBackend "" "password123" = Except.ok "" ∧
    CryptoUtil.decrypt idBackend "" "password123" ≠ Except.ok "" := by
  refine ⟨idBackend_aesCorrect, by decide, rfl, ?_⟩
  have h : CryptoUtil.decrypt idBackend "" "password123" =
      Except.error "解密失败，请检查密钥" := rfl
  rw [h]
  exact fun hc => Except.noConfusion hc

/-- C1, witness: the amended round-trip theorem applied at the identity
backend with passphrase `"password123"` and plaintext `"hello"`. -/
theorem c1_roundtrip_witness :
    CryptoUtil.validateKey "password123" = true ∧
    ("hello" : String) ≠ "" ∧
    CryptoUtil.decrypt idBackend "hello" "password123" = Except.ok "hello" :=
  ⟨by decide, by decide,
    c1_roundtrip idBackend "password123" "hello" "hello" idBackend_aesCorrect
      (by decide) (by decide) rfl⟩

/-- C2: if the AES primitive separates keys (`KeySeparation`) and the two
valid passphrases hash to different derived keys, then decrypting an
envelope of a non-empty `s` under the other passphrase never returns
`Except.ok s`: it either throws the decryption error or yields a
different value. -/
theorem c2_key_mismatch (B : CryptoJSBackend) (p1 p2 s e : String)
    (hsep : KeySeparation B)
    (hv1 : CryptoUtil.validateKey p1 = true)
    (hv2 : CryptoUtil.validateKey p2 = true)
    (hkeys : B.sha256 p1 ≠ B.sha256 p2) (hs : s ≠ "")
    (henc : CryptoUtil.encrypt B s p1 = Except.ok e) :
    CryptoUtil.decrypt B e p2 ≠ Except.ok s := by
  have hprim := (encrypt_ok_iff B s p1 e).mp henc
  rw [generateKey_eq] at hprim
  have hne := hsep s (B.sha256 p1) (B.sha256 p2) e hkeys hprim
  rw [decrypt_eq]
  cases h : B.aesDecryptUtf8 e (CryptoUtil.generateKey B p2) with
  | error m => exact fun hc => Except.noConfusion hc
  | ok t =>
    show (if t = "" then (Except.error "解密失败，请检查密钥" : Except String String)
        else Except.ok t) ≠ Except.ok s
    by_cases ht : t = ""
    · subst ht
      simp
    · rw [if_neg ht]
      intro hc
      cases hc
      rw [generateKey_eq] at h
      exact hne h

/-- C2, witness: the key-mismatch theorem applied at the key-sensitive
toy backend with passphrases `"passphrase-one"` / `"passphrase-two"` and
plaintext `"secret msg"`. -/
theorem c2_key_mismatch_witness :
    CryptoUtil.validateKey "passphrase-one" = true ∧
    CryptoUtil.validateKey "passphrase-two" = true ∧
    lockBackend.sha256 "passphrase-one" ≠ lockBackend.sha256 "passphrase-two" ∧
    CryptoUtil.decrypt lockBackend "secret msg" "passphrase-two" ≠
      Except.ok "secret msg" :=
  ⟨by decide, by decide, by decide,
    c2_key_mismatch lockBackend "passphrase-one" "passphrase-two" "secret msg"
      "secret msg" lockBackend_keySeparation (by decide) (by decide)
      (by decide) (by decide) rfl⟩

/-- C3: `decrypt` fails exactly when the decryption primitive throws
(unparseable envelope or undecodable bytes — which is also how a
mismatched derived key manifests) or when the decoded result is empty;
in particular, when a wrong key makes the primitive silently yield
garbage that decodes to the empty string (no primitive-level exception),
`decrypt` still rejects it with the decryption error. -/
theorem c3_decrypt_error_characterisation (B : CryptoJSBackend)
    (ct p : String) :
    ((∃ m, CryptoUtil.decrypt B ct p = Except.error m) ↔
      ((∃ m, B.aesDecryptUtf8 ct (CryptoUtil.generateKey B p) =
          Except.error m) ∨
        B.aesDecryptUtf8 ct (CryptoUtil.generateKey B p) = Except.ok "")) ∧
    (B.aesDecryptUtf8 ct (CryptoUtil.generateKey B p) = Except.ok "" →
      CryptoUtil.decrypt B ct p = Except.error "解密失败，请检查密钥") := by
  constructor
  · rw [decrypt_eq]
    cases h : B.aesDecryptUtf8 ct (CryptoUtil.generateKey B p) with
    | error m => simp
    | ok t =>
      show (∃ m, (if t = "" then
          (Except.error "解密失败，请检查密钥" : Except String String)
          else Except.ok t) = Except.error m) ↔ _
      by_cases ht : t = ""
      · subst ht
        simp
      · rw [if_neg ht]
        simp [ht]
  · intro h
    rw [decrypt_eq, h]
    rfl

/-- C3, witness: with a backend whose primitive silently decodes the
envelope `"junk"` to the empty string, `decrypt` rejects it with the
decryption error. -/
theorem c3_decrypt_error_witness :
    CryptoUtil.decrypt (CryptoJSBackend.mk (fun s => s)
        (fun pt _ => Except.ok pt) (fun _ _ => Except.ok ""))
      "junk" "wrongkey123" = Except.error "解密失败，请检查密钥" :=
  (c3_decrypt_error_characterisation (CryptoJSBackend.mk (fun s => s)
      (fun pt _ => Except.ok pt) (fun _ _ => Except.ok ""))
    "junk" "wrongkey123").2 rfl

/-- C4: `validateKey` accepts exactly the strings whose JavaScript-trimmed
form has at least 8 characters; in particular it rejects the empty
string, the whitespace-only string and the 7-character `"short12"`, and
accepts the 8-character `"exactly8"`. -/
theorem c4_validate_boundary :
    (∀ s : String, CryptoUtil.validateKey s = true ↔ 8 ≤ (jsTrim s).length) ∧
    CryptoUtil.validateKey "" = false ∧
    CryptoUtil.validateKey "   " = false ∧
    CryptoUtil.validateKey "short12" = false ∧
    CryptoUtil.validateKey "exactly8" = true := by
  refine ⟨?_, by decide, by decide, by decide, by decide⟩
  intro s
  unfold CryptoUtil.validateKey
  by_cases h0 : s = ""
  · subst h0
    simp [jsTrim]
  · by_cases h1 : (jsTrim s).length = 0
    · simp [h0, h1]
    · by_cases h2 : (jsTrim s).length < 8
      · simp only [h0, h1, h2]
        simp
        omega
      · simp only [h0, h1, h2]
        simp
        omega

/-- C4, witness: the general boundary characterisation applied at the
8-character string `"exactly8"`. -/
theorem c4_validate_boundary_witness :
    CryptoUtil.validateKey "exactly8" = true :=
  (c4_validate_boundary.1 "exactly8").mpr (by decide)

/-- C5: `isKeyValid` is true exactly when a key is stored and both
`validateKey` and the `testKey` self-test pass on it; in particular,
when no key is stored, `hasKey` and `isKeyValid` are both false. -/
theorem c5_isKeyValid_characterisation (B : CryptoJSBackend)
    (st : StorageState) :
    (ASEKeyManager.isKeyValid B st = true ↔
      ∃ k, ASEKeyManager.getKey st = some k ∧
        CryptoUtil.validateKey k = true ∧ CryptoUtil.testKey B k = true) ∧
    (ASEKeyManager.getKey st = none →
      ASEKeyManager.hasKey st = false ∧
      ASEKeyManager.isKeyValid B st = false) := by
  constructor
  · unfold ASEKeyManager.isKeyValid
    cases hg : ASEKeyManager.getKey st with
    | none => simp
    | some k =>
      show (if k = "" then false
          else CryptoUtil.validateKey k && CryptoUtil.testKey B k) = true ↔ _
      by_cases hk : k = ""
      · subst hk
        have hv : CryptoUtil.validateKey "" = false := by decide
        simp [hv]
      · rw [if_neg hk]
        simp [Bool.and_eq_true]
  · intro hg
    unfold ASEKeyManager.hasKey ASEKeyManager.isKeyValid
    rw [hg]
    simp

/-- C5, witness: in a client context with no stored key, `hasKey` and
`isKeyValid` are both false. -/
theorem c5_isKeyValid_witness :
    ASEKeyManager.hasKey ⟨true, none⟩ = false ∧
    ASEKeyManager.isKeyValid idBackend ⟨true, none⟩ = false :=
  (c5_isKeyValid_characterisation idBackend ⟨true, none⟩).2 rfl

/-- C6: for every backend (including ones whose cipher primitives always
throw), every storage state and every input, the exception-monad
elaborations of the five key-manager operations return `Except.ok` of the
corresponding pure value — the key manager never lets an exception
escape, collapsing all error conditions to `null`/`false` results. -/
theorem c6_keyManager_never_throws (B : CryptoJSBackend) (st : StorageState)
    (k : String) :
    ASEKeyManager.getKeyE st = Except.ok (ASEKeyManager.getKey st) ∧
    ASEKeyManager.setKeyE k st = Except.ok (ASEKeyManager.setKey k st) ∧
    ASEKeyManager.removeKeyE st = Except.ok (ASEKeyManager.removeKey st) ∧
    ASEKeyManager.hasKeyE st = Except.ok (ASEKeyManager.hasKey st) ∧
    ASEKeyManager.isKeyValidE B st =
      Except.ok (ASEKeyManager.isKeyValid B st) :=
  ⟨rfl, rfl, rfl, rfl, isKeyValidE_ok B st⟩

/-- C6, witness: even with the always-throwing backend and a stored key,
`isKeyValidE` returns an `ok` value rather than an error. -/
theorem c6_keyManager_witness :
    ASEKeyManager.isKeyValidE errBackend ⟨true, some "stored-pass-1"⟩ =
      Except.ok (ASEKeyManager.isKeyValid errBackend
        ⟨true, some "stored-pass-1"⟩) :=
  (c6_keyManager_never_throws errBackend ⟨true, some "stored-pass-1"⟩
    "unused").2.2.2.2

/-- C7: whenever the cipher primitive is functioning (AES round-trips and
encryption accepts every input), `testKey` succeeds on every passphrase
accepted by `validateKey`; and with a corrupted/unavailable cipher
backend (every primitive call throws), `testKey` returns false and no
exception escapes the key manager's `isKeyValid`. -/
theorem c7_selfTest_consistency (B : CryptoJSBackend) (p : String) :
    (AESCorrect B → EncryptTotal B → CryptoUtil.validateKey p = true →
      CryptoUtil.testKey B p = true) ∧
    ((∀ pt key, ∃ m, B.aesEncrypt pt key = Except.error m) →
      CryptoUtil.testKey B p = false ∧
      ∀ st : StorageState, ASEKeyManager.isKeyValidE B st =
        Except.ok (ASEKeyManager.isKeyValid B st)) := by
  constructor
  · intro hA hT hval
    obtain ⟨ct, hct⟩ := hT "test" (CryptoUtil.generateKey B p)
    have henc : CryptoUtil.encrypt B "test" p = Except.ok ct :=
      (encrypt_ok_iff B "test" p ct).mpr hct
    have hdec : CryptoUtil.decrypt B ct p = Except.ok "test" :=
      decrypt_of_prim B ct p "test" (by decide) (hA _ _ _ hct)
    have hbody : CryptoUtil.testKeyBody B p = Except.ok true := by
      unfold CryptoUtil.testKeyBody
      rw [henc, except_bind_ok, hdec, except_bind_ok]
      rfl
    rw [testKey_eq, hbody]
  · intro hErr
    have htb : ∃ m, CryptoUtil.testKeyBody B p = Except.error m := by
      obtain ⟨m, hm⟩ := hErr "test" (CryptoUtil.generateKey B p)
      have he : CryptoUtil.encrypt B "test" p =
          Except.error "加密失败，请检查密钥" := by
        rw [encrypt_eq, hm]
      unfold CryptoUtil.testKeyBody
      rw [he, except_bind_error]
      exact ⟨_, rfl⟩
    obtain ⟨m, hm⟩ := htb
    refine ⟨?_, fun st => isKeyValidE_ok B st⟩
    rw [testKey_eq, hm]

/-- C7, witness: the consistency theorem applied at the identity backend
(functioning cipher) and at the always-throwing backend (corrupted
cipher), with the valid passphrase `"password-abc"`. -/
theorem c7_selfTest_witness :
    CryptoUtil.testKey idBackend "password-abc" = true ∧
    CryptoUtil.testKey errBackend "password-abc" = false :=
  ⟨(c7_selfTest_consistency idBackend "password-abc").1 idBackend_aesCorrect
      idBackend_encryptTotal (by decide),
    ((c7_selfTest_consistency errBackend "password-abc").2
      (fun pt key => ⟨"cipher unavailable", rfl⟩)).1⟩

/-- The shape of `CryptoJS.SHA256(...).toString()` output: a fixed-length
string of 64 lowercase hexadecimal characters. -/
def SHA256HexShape (B : CryptoJSBackend) : Prop :=
  ∀ x : String, (B.sha256 x).length = 64 ∧
    ∀ c ∈ (B.sha256 x).data, c.isDigit = true ∨ ('a' ≤ c ∧ c ≤ 'f')

theorem hashBackend_shape : SHA256HexShape hashBackend := by
  intro x
  refine ⟨by simp [hashBackend, String.length], ?_⟩
  intro c hc
  right
  have hm : c = (if x = "passphrase-one" then 'a' else 'b') :=
    List.eq_of_mem_replicate hc
  by_cases hx : x = "passphrase-one"
  · rw [hm, if_pos hx]
    exact ⟨le_refl _, by decide⟩
  · rw [hm, if_neg hx]
    exact ⟨by decide, by decide⟩

/-- C8: key derivation is deterministic (calling it twice on the same
passphrase yields the same derived key — it is a pure, total function of
the passphrase, with no failure mode), it separates any two passphrases
that the underlying hash separates, and it inherits the hash's
fixed-length hex shape. -/
theorem c8_deriveKey_determinism (B : CryptoJSBackend) (p1 p2 : String) :
    CryptoUtil.generateKey B p1 = CryptoUtil.generateKey B p1 ∧
    (B.sha256 p1 ≠ B.sha256 p2 →
      CryptoUtil.generateKey B p1 ≠ CryptoUtil.generateKey B p2) ∧
    (SHA256HexShape B → (CryptoUtil.generateKey B p1).length = 64) :=
  ⟨rfl, fun h => h, fun hS => (hS p1).1⟩

/-- C8, witness: the derivation theorem applied at a backend with the
SHA-256 output shape, on the sample passphrases `"passphrase-one"` and
`"passphrase-two"`. -/
theorem c8_deriveKey_witness :
    CryptoUtil.generateKey hashBackend "passphrase-one" ≠
      CryptoUtil.generateKey hashBackend "passphrase-two" ∧
    (CryptoUtil.generateKey hashBackend "passphrase-one").length = 64 :=
  ⟨(c8_deriveKey_determinism hashBackend "passphrase-one"
      "passphrase-two").2.1 (by decide),
    (c8_deriveKey_determinism hashBackend "passphrase-one"
      "passphrase-two").2.2 hashBackend_shape⟩

/-- C9: outside a client execution context `getKey` returns null and
`setKey`/`removeKey` leave the stored-key state unchanged; inside a
client context, after `setKey k` the stored key reads back as `k`
(overwriting any previous value), and after `removeKey` no key is
stored. -/
theorem c9_storage_effects (st : StorageState) (k : String) :
    (st.isClient = false →
      ASEKeyManager.getKey st = none ∧
      ASEKeyManager.setKey k st = st ∧
      ASEKeyManager.removeKey st = st) ∧
    (st.isClient = true →
      ASEKeyManager.getKey (ASEKeyManager.setKey k st) = some k ∧
      ASEKeyManager.hasKey (ASEKeyManager.removeKey st) = false) := by
  constructor
  · intro h
    simp [ASEKeyManager.getKey, ASEKeyManager.setKey,
      ASEKeyManager.removeKey, h]
  · intro h
    simp [ASEKeyManager.getKey, ASEKeyManager.setKey,
      ASEKeyManager.removeKey, ASEKeyManager.hasKey, h]

/-- C9, witness: outside the client context the stored key is invisible;
inside it, setting a new key overwrites the old one. -/
theorem c9_storage_effects_witness :
    ASEKeyManager.getKey ⟨false, some "old-pass-123"⟩ = none ∧
    ASEKeyManager.getKey (ASEKeyManager.setKey "new-pass-456"
      ⟨true, some "old-pass-123"⟩) = some "new-pass-456" :=
  ⟨((c9_storage_effects ⟨false, some "old-pass-123"⟩ "unused").1 rfl).1,
    ((c9_storage_effects ⟨true, some "old-pass-123"⟩ "new-pass-456").2
      rfl).1⟩

/-- C10: under any backend whose AES primitive round-trips, an envelope
produced by encrypting the empty string can never be decrypted, even with
the correct passphrase: the empty-result validity check in `decrypt`
rejects the recovered empty plaintext with the decryption error. -/
theorem c10_empty_envelope (B : CryptoJSBackend) (p e : String)
    (hA : AESCorrect B)
    (henc : CryptoUtil.encrypt B "" p = Except.ok e) :
    CryptoUtil.decrypt B e p = Except.error "解密失败，请检查密钥" := by
  have hprim := (encrypt_ok_iff B "" p e).mp henc
  have hdec := hA _ _ _ hprim
  rw [decrypt_eq, hdec]
  simp

/-- C10, witness: the empty-plaintext theorem applied at the identity
backend with passphrase `"correct-horse-battery"`. -/
theorem c10_empty_envelope_witness :
    CryptoUtil.encrypt idBackend "" "correct-horse-battery" = Except.ok "" ∧
    CryptoUtil.decrypt idBackend "" "correct-horse-battery" =
      Except.error "解密失败，请检查密钥" :=
  ⟨rfl, c10_empty_envelope idBackend "correct-horse-battery" ""
    idBackend_aesCorrect rfl⟩

end Toss
